/-
  Verification of the per-connection proxy session of go-tcp-proxy-tunnel.

  The definitions below are a shallow embedding of src/pkg/proxy/proxy.go:
  pure buffer transformations become Lean functions on `String` (Go byte
  strings; all inputs of interest are ASCII, where Go's byte-wise operations
  and Lean's character-wise operations coincide), Go panics (index out of
  range) become `Option.none`, and the concurrent session lifecycle becomes
  an explicit small-step transition system.
-/
import Mathlib

namespace TunnelProxy

/-! ## Go string primitives used by the proxy

Models of the Go standard-library functions the proxy calls:
`strings.Replace(s, old, new, -1)`, `strings.Contains`, `strings.ToLower`,
`strings.Split`, `strings.Join`, `bufio.Scanner` with `ScanLines`,
`net.SplitHostPort` and `strconv.ParseUint`. -/

/-- One step of `strings.Replace` with count -1, on character lists, with
fuel (the fuel is always instantiated with the length of the subject, which
suffices because every step consumes at least one character when the pattern
is nonempty).  The repository never substitutes an empty pattern; for an
empty pattern we return the subject unchanged. -/
def replaceL : Nat → List Char → List Char → List Char → List Char
  | _, s, [], _ => s
  | 0, s, _, _ => s
  | fuel + 1, s, pat, rep =>
    match s with
    | [] => []
    | c :: t =>
      if pat.isPrefixOf (c :: t) then
        rep ++ replaceL fuel (List.drop pat.length (c :: t)) pat rep
      else
        c :: replaceL fuel t pat rep

/-- Go `strings.Replace(s, pat, rep, -1)`: replace every (leftmost,
non-overlapping) occurrence of `pat` in `s` by `rep`. -/
def goReplaceAll (s pat rep : String) : String :=
  String.mk (replaceL s.data.length s.data pat.data rep.data)

/-- Substring containment on character lists. -/
def goContainsL : List Char → List Char → Bool
  | [], pat => pat.isEmpty
  | c :: t, pat => pat.isPrefixOf (c :: t) || goContainsL t pat

/-- Go `strings.Contains(s, pat)`. -/
def goContains (s pat : String) : Bool :=
  goContainsL s.data pat.data

/-- Go `strings.ToLower`, restricted to ASCII (the only case exercised by
the proxy's HTTP-ish inputs). -/
def goToLower (s : String) : String :=
  String.mk (s.data.map Char.toLower)

/-- Split a character list at every occurrence of the character `c`
(Go `strings.Split(s, sep)` for a one-character separator). -/
def splitOnChar (c : Char) : List Char → List (List Char)
  | [] => [[]]
  | x :: xs =>
    if x = c then [] :: splitOnChar c xs
    else
      match splitOnChar c xs with
      | [] => [[x]]
      | h :: t => (x :: h) :: t

/-- Go `strings.Split(s, sep)` for a one-character separator `sep`. -/
def goSplitChar (s : String) (c : Char) : List String :=
  (splitOnChar c s.data).map String.mk

/-- Go `strings.Join(l, sep)`. -/
def goJoin : List String → String → String
  | [], _ => ""
  | [x], _ => x
  | x :: y :: t, sep => x ++ sep ++ goJoin (y :: t) sep

/-- Drop a single trailing carriage return (the `dropCR` step of Go's
`bufio.ScanLines`). -/
def dropCR (l : List Char) : List Char :=
  match l.reverse with
  | '\r' :: t => t.reverse
  | _ => l

/-- The token sequence produced by a `bufio.Scanner` with `ScanLines` over
the buffer: split at each newline, drop the empty trailing segment left by a
final newline, and strip one trailing carriage return from every token.  An
empty buffer yields no tokens at all. -/
def scanLines (s : String) : List String :=
  let parts := splitOnChar '\n' s.data
  let parts := if parts.getLast? = some [] then parts.dropLast else parts
  parts.map (fun l => String.mk (dropCR l))

/-- Go `strconv.ParseUint(s, 10, 64)`: a nonempty all-digit string whose
value fits in 64 bits. -/
def parseUint64 (s : String) : Option Nat :=
  if s.data ≠ [] ∧ s.data.all Char.isDigit then
    let n := s.data.foldl (fun acc c => acc * 10 + (c.toNat - 48)) 0
    if n < 2 ^ 64 then some n else none
  else
    none

/-- Split a character list at its last colon. -/
def lastColonSplit (cs : List Char) : Option (List Char × List Char) :=
  let rev := cs.reverse
  let portRev := rev.takeWhile (fun c => c ≠ ':')
  match rev.dropWhile (fun c => c ≠ ':') with
  | [] => none
  | _ :: hostRev => some (hostRev.reverse, portRev.reverse)

/-- Go `net.SplitHostPort`, modelled for the bracket-free `host:port` shape
the repository feeds it: the last colon separates host from port; brackets,
or a colon inside the host part, are parse errors. -/
def splitHostPort (s : String) : Option (String × String) :=
  if s.data.contains '[' || s.data.contains ']' then none
  else
    match lastColonSplit s.data with
    | none => none
    | some (h, port) =>
      if h.contains ':' then none
      else some (String.mk h, String.mk port)

/-! ## The proxy session state

`Proxy` carries the fields of the Go struct that take part in buffer
rewriting and session control.  The stream handles and resolved addresses
are pure I/O identities and appear only in the lifecycle model further
below; the log-only connection-info string is omitted. -/

/-- `tcp.Host` from the repository's `internal/tcp` package (its shape is
fixed by the composite literal in `SetServerHost`): a parsed host name and
port. -/
structure Host where
  HostName : String
  Port : Nat
  deriving DecidableEq, Repr

/-- The rewriting- and lifecycle-relevant state of one proxy session
(Go struct `Proxy`). -/
structure Proxy where
  secure : Bool := false
  proxyKind : String := ""
  sHost : Host := { HostName := "", Port := 0 }
  tlsEnabled : Bool := false
  sniHost : String := ""
  lPayload : String := ""
  rPayload : String := ""
  buffSize : Nat := 0xffff
  lInitialized : Bool := false
  rInitialized : Bool := false
  bytesReceived : Nat := 0
  bytesSent : Nat := 0
  connId : Nat := 0
  serverProxyMode : Bool := false
  wsUpgradeInitialized : Bool := false
  deriving DecidableEq, Repr

/-- `NewProxy`: the constructor's explicit field initialisation (stream
handles and addresses omitted). -/
def NewProxy (connId : Nat) : Proxy :=
  { secure := false
    proxyKind := ""
    sHost := { HostName := "", Port := 0 }
    tlsEnabled := false
    sniHost := ""
    lPayload := ""
    rPayload := ""
    buffSize := 0xffff
    lInitialized := false
    rInitialized := false
    bytesReceived := 0
    bytesSent := 0
    connId := connId
    serverProxyMode := false
    wsUpgradeInitialized := false }

/-- `Proxy.SetlPayload`: substitute `[host]`, `[host_port]` (only when a
server host is configured), `[sni]` (only when an SNI host is configured)
and `[crlf]`, in that order, and store the result as the outbound payload. -/
def Proxy.SetlPayload (p : Proxy) (lPayload : String) : Proxy :=
  let s :=
    if p.sHost.HostName ≠ "" then
      goReplaceAll (goReplaceAll lPayload "[host]" p.sHost.HostName)
        "[host_port]" (p.sHost.HostName ++ ":" ++ toString p.sHost.Port)
    else lPayload
  let s := if p.sniHost ≠ "" then goReplaceAll s "[sni]" p.sniHost else s
  let s := goReplaceAll s "[crlf]" "\r\n"
  { p with lPayload := s }

/-- `Proxy.SetrPayload`: default an empty template to the canned
`HTTP/1.1 200 Connection Established[crlf][crlf]`, then substitute
`[crlf]` and store the result as the inbound payload. -/
def Proxy.SetrPayload (p : Proxy) (rPayload : String) : Proxy :=
  let t := if rPayload = "" then "HTTP/1.1 200 Connection Established[crlf][crlf]" else rPayload
  { p with rPayload := goReplaceAll t "[crlf]" "\r\n" }

/-- `Proxy.SetServerProxyMode`. -/
def Proxy.SetServerProxyMode (p : Proxy) (enabled : Bool) : Proxy :=
  { p with serverProxyMode := enabled }

/-- `Proxy.SetServerHost`: parse `host:port`; either parse failure is
logged and leaves the session unchanged. -/
def Proxy.SetServerHost (p : Proxy) (server : String) : Proxy :=
  match splitHostPort server with
  | none => p
  | some (h, port) =>
    match parseUint64 port with
    | none => p
    | some n => { p with sHost := { HostName := h, Port := n } }

/-- `Proxy.SetBufferSize`. -/
def Proxy.SetBufferSize (p : Proxy) (buffSize : Nat) : Proxy :=
  { p with buffSize := buffSize }

/-- `Proxy.SetEnableTLS`. -/
def Proxy.SetEnableTLS (p : Proxy) (enabled : Bool) : Proxy :=
  { p with tlsEnabled := enabled }

/-- `Proxy.SetSNIHost`. -/
def Proxy.SetSNIHost (p : Proxy) (hostname : String) : Proxy :=
  { p with sniHost := hostname }

/-- `Proxy.SetProxyKind` (the derived log string is omitted). -/
def Proxy.SetProxyKind (p : Proxy) (proxyKind : String) : Proxy :=
  { p with proxyKind := proxyKind }

/-! ## The first-packet rewrite hooks

Both hooks return `none` exactly where the Go code panics with an
index-out-of-range (`respArr[0]` on an empty token list, and the trojan
branch's `strings.Split(respArr[0], " ")[1]` on a one-field first line). -/

/-- The fixed WebSocket-upgrade answer the server-mode hook substitutes for
the client's handshake request. -/
def wsUpgradeResponse : String :=
  "HTTP/1.1 101 Switching Protocols\r\nUpgrade: websocket\r\nConnection: Upgrade\r\n\r\n"

/-- `Proxy.handleOutboundData`: the outbound (local → remote) first-packet
hook.  Returns the updated session and the (possibly replaced) buffer. -/
def Proxy.handleOutboundData (p : Proxy) (connBuff : String) : Option (Proxy × String) :=
  if p.lInitialized then some (p, connBuff)
  else
    let respArr := scanLines connBuff
    let doUpgrade := respArr.any (fun l => goContains (goToLower l) "upgrade: websocket")
    if p.serverProxyMode then
      if doUpgrade then
        some ({ p with wsUpgradeInitialized := true, lInitialized := true }, wsUpgradeResponse)
      else
        some ({ p with lInitialized := true }, connBuff)
    else
      match
        (if p.proxyKind = "ssh" then
          match respArr with
          | [] => none
          | first :: _ => some (if goContains first "CONNECT " then p.lPayload else connBuff)
        else some connBuff) with
      | none => none
      | some buff1 =>
        match
          (if p.proxyKind = "trojan" then
            match respArr with
            | [] => none
            | first :: _ =>
              match (goSplitChar first ' ').drop 1 with
              | [] => none
              | reqPath :: _ =>
                some (goReplaceAll buff1 (" " ++ reqPath ++ " ")
                  (" wss://" ++ p.sniHost ++ reqPath ++ " "))
          else some buff1) with
        | none => none
        | some buff2 => some ({ p with lInitialized := true }, buff2)

/-- `Proxy.handleInboundData`: the inbound (remote → local) first-packet
hook. -/
def Proxy.handleInboundData (p : Proxy) (connBuff : String) : Option (Proxy × String) :=
  if p.rInitialized then some (p, connBuff)
  else
    match scanLines connBuff with
    | [] => none
    | first :: rest =>
      let first1 :=
        if goContains first " 101 " = true ∧ p.proxyKind = "ssh" then
          goReplaceAll p.rPayload "\r\n" ""
        else first
      let buff1 :=
        if p.serverProxyMode then connBuff
        else goJoin (first1 :: rest) "\r\n" ++ "\r\n"
      some ({ p with rInitialized := true }, buff1)

/-! ## One iteration of the forwarding loop

`forwardIter` is the body of `handleForwardData`'s loop after a successful
read of `buf` (read and write errors belong to the lifecycle model below):
dispatch to the direction's hook, then either — in server mode with the
upgrade flag just set — write the buffer back to the *source* stream, clear
the flag and spawn the reverse-direction task, or write to the destination
stream; finally account the written bytes. -/

/-- Which stream the loop body hands the buffer to. -/
inductive WriteTarget
  | toSrc
  | toDst
  deriving DecidableEq, Repr

/-- Observable outcome of one successful loop iteration. -/
structure IterOutcome where
  state : Proxy
  written : String
  target : WriteTarget
  spawnedReverse : Bool
  deriving DecidableEq, Repr

/-- Byte-counter accounting after a successful write of `b`
(`bytesSent` for the outbound task, `bytesReceived` for the inbound one). -/
def Proxy.account (p : Proxy) (isLocal : Bool) (b : String) : Proxy :=
  if isLocal then { p with bytesSent := p.bytesSent + b.length }
  else { p with bytesReceived := p.bytesReceived + b.length }

/-- One iteration of `Proxy.handleForwardData`'s loop on a successfully
read buffer, with both the hook call and the write succeeding;
`none` where the hook panics. -/
def Proxy.forwardIter (p : Proxy) (isLocal : Bool) (buf : String) : Option IterOutcome :=
  match (if isLocal then p.handleOutboundData buf else p.handleInboundData buf) with
  | none => none
  | some (p1, b1) =>
    if p1.serverProxyMode && p1.wsUpgradeInitialized then
      some { state := Proxy.account { p1 with wsUpgradeInitialized := false } isLocal b1
             written := b1
             target := WriteTarget.toSrc
             spawnedReverse := true }
    else
      some { state := Proxy.account p1 isLocal b1
             written := b1
             target := WriteTarget.toDst
             spawnedReverse := false }

/-- Run the forwarding loop over a list of successfully read buffers,
collecting what is written and where. -/
def Proxy.forwardRun (p : Proxy) (isLocal : Bool) :
    List String → Option (Proxy × List (String × WriteTarget))
  | [] => some (p, [])
  | b :: bs =>
    match p.forwardIter isLocal b with
    | none => none
    | some o =>
      match o.state.forwardRun isLocal bs with
      | none => none
      | some (pf, outs) => some (pf, (o.written, o.target) :: outs)

/-! ## The session lifecycle as a transition system

An interleaving model of `Proxy.Start`, `Proxy.err` and the fatal-error
exits of the two forwarding tasks.  `Proxy.err` is split into its atomic
steps — read `erred`; send on `errSig` (capacity 2); set `erred` — because
the two tasks run it concurrently without synchronisation.  `Start` dials,
waits for one message on `errSig`, and then runs its deferred closes in
LIFO order (remote stream first, then local stream); on dial failure only
the local-stream close is pending. -/

/-- Program counter of one forwarding task's shutdown path
(`running` → fatal read/write error → the three atomic steps of
`Proxy.err` → `done`). -/
inductive TaskPC
  | running
  | checking
  | sending
  | latching
  | done
  deriving DecidableEq, Repr

/-- Program counter of `Start`. -/
inductive StartPC
  | dialing
  | waiting
  | closingR
  | closingL
  | finished
  deriving DecidableEq, Repr

/-- Lifecycle state of one session: the two task counters, the `erred`
latch, the `errSig` channel content, assertion/observation/close counters,
and `Start`'s counter. -/
structure SessState where
  dialOk : Bool
  twoTasks : Bool
  taskA : TaskPC
  taskB : TaskPC
  erred : Bool
  chanMsgs : Nat
  sends : Nat
  recvs : Nat
  sentA : Bool
  sentB : Bool
  startPC : StartPC
  closedL : Nat
  closedR : Nat
  deriving DecidableEq, Repr

/-- Initial lifecycle state: `Start` about to dial; in server mode
(`twoTasks = false`) only the outbound task exists. -/
def initSess (dialOk twoTasks : Bool) : SessState :=
  { dialOk := dialOk
    twoTasks := twoTasks
    taskA := TaskPC.running
    taskB := if twoTasks then TaskPC.running else TaskPC.done
    erred := false
    chanMsgs := 0
    sends := 0
    recvs := 0
    sentA := false
    sentB := false
    startPC := StartPC.dialing
    closedL := 0
    closedR := 0 }

/-- Atomic interleaving steps of the session lifecycle. -/
inductive SessStep : SessState → SessState → Prop
  | dialSuccess {s : SessState} :
      s.startPC = StartPC.dialing → s.dialOk = true →
      SessStep s { s with startPC := StartPC.waiting }
  | dialFailure {s : SessState} :
      s.startPC = StartPC.dialing → s.dialOk = false →
      SessStep s { s with startPC := StartPC.closingL }
  | failA {s : SessState} :
      s.dialOk = true → s.startPC ≠ StartPC.dialing → s.taskA = TaskPC.running →
      SessStep s { s with taskA := TaskPC.checking }
  | failB {s : SessState} :
      s.dialOk = true → s.startPC ≠ StartPC.dialing → s.taskB = TaskPC.running →
      SessStep s { s with taskB := TaskPC.checking }
  | checkSeenA {s : SessState} :
      s.taskA = TaskPC.checking → s.erred = true →
      SessStep s { s with taskA := TaskPC.done }
  | checkFreshA {s : SessState} :
      s.taskA = TaskPC.checking → s.erred = false →
      SessStep s { s with taskA := TaskPC.sending }
  | checkSeenB {s : SessState} :
      s.taskB = TaskPC.checking → s.erred = true →
      SessStep s { s with taskB := TaskPC.done }
  | checkFreshB {s : SessState} :
      s.taskB = TaskPC.checking → s.erred = false →
      SessStep s { s with taskB := TaskPC.sending }
  | sendA {s : SessState} :
      s.taskA = TaskPC.sending → s.chanMsgs < 2 →
      SessStep s { s with taskA := TaskPC.latching, chanMsgs := s.chanMsgs + 1,
                          sends := s.sends + 1, sentA := true }
  | sendB {s : SessState} :
      s.taskB = TaskPC.sending → s.chanMsgs < 2 →
      SessStep s { s with taskB := TaskPC.latching, chanMsgs := s.chanMsgs + 1,
                          sends := s.sends + 1, sentB := true }
  | latchA {s : SessState} :
      s.taskA = TaskPC.latching →
      SessStep s { s with taskA := TaskPC.done, erred := true }
  | latchB {s : SessState} :
      s.taskB = TaskPC.latching →
      SessStep s { s with taskB := TaskPC.done, erred := true }
  | recv {s : SessState} :
      s.startPC = StartPC.waiting → 0 < s.chanMsgs →
      SessStep s { s with startPC := StartPC.closingR, chanMsgs := s.chanMsgs - 1,
                          recvs := s.recvs + 1 }
  | closeRemote {s : SessState} :
      s.startPC = StartPC.closingR →
      SessStep s { s with startPC := StartPC.closingL, closedR := s.closedR + 1 }
  | closeLocal {s : SessState} :
      s.startPC = StartPC.closingL →
      SessStep s { s with startPC := StartPC.finished, closedL := s.closedL + 1 }

/-- Reachability of lifecycle states from the initial one. -/
def SessReachable (dialOk twoTasks : Bool) (s : SessState) : Prop :=
  Relation.ReflTransGen SessStep (initSess dialOk twoTasks) s

/-- A lifecycle state with no enabled step (the session has fully
terminated). -/
def SessStuck (s : SessState) : Prop :=
  ∀ t, ¬ SessStep s t

/-- Numeric value of a Bool flag. -/
def b2n (b : Bool) : Nat := if b then 1 else 0

/-- Inductive invariant of the lifecycle transition system: the assertion
count tracks the per-task sent flags, the channel balances assertions
against observations, each task asserts at most once, `erred` implies a
prior assertion, and `Start`'s counter determines the observation and close
counters. -/
def SessInv (s : SessState) : Prop :=
  s.sends = b2n s.sentA + b2n s.sentB ∧
  s.chanMsgs + s.recvs = s.sends ∧
  (s.taskA ≠ TaskPC.latching → s.taskA ≠ TaskPC.done → s.sentA = false) ∧
  (s.taskA = TaskPC.latching → s.sentA = true) ∧
  (s.taskA = TaskPC.done → s.sentA = true ∨ s.erred = true) ∧
  (s.taskB ≠ TaskPC.latching → s.taskB ≠ TaskPC.done → s.sentB = false) ∧
  (s.taskB = TaskPC.latching → s.sentB = true) ∧
  (s.erred = true → 1 ≤ s.sends) ∧
  ((s.startPC = StartPC.waiting ∨ s.startPC = StartPC.closingR) → s.dialOk = true) ∧
  s.recvs = (if s.startPC = StartPC.closingR ∨
      ((s.startPC = StartPC.closingL ∨ s.startPC = StartPC.finished) ∧ s.dialOk = true)
    then 1 else 0) ∧
  s.closedR = (if (s.startPC = StartPC.closingL ∨ s.startPC = StartPC.finished) ∧
      s.dialOk = true then 1 else 0) ∧
  s.closedL = (if s.startPC = StartPC.finished then 1 else 0) ∧
  (s.dialOk = false → s.sentA = false ∧ s.sentB = false ∧ s.erred = false) ∧
  (s.dialOk = false → s.taskA = TaskPC.running ∧
    (s.taskB = TaskPC.running ∨ s.taskB = TaskPC.done))

theorem sessInv_init (d two : Bool) : SessInv (initSess d two) := by
  cases d <;> cases two <;> (unfold SessInv initSess; decide)

theorem sessStep_const {s t : SessState} (h : SessStep s t) :
    t.dialOk = s.dialOk ∧ t.twoTasks = s.twoTasks := by
  cases h <;> exact ⟨rfl, rfl⟩

theorem sessInv_step {s t : SessState} (hs : SessInv s) (h : SessStep s t) : SessInv t := by
  obtain ⟨h1, h2, h3, h4, h5, h6, h7, h9, h10, h11, h12, h13, h14, h15⟩ := hs
  cases h <;>
    simp_all only [SessInv, b2n, ne_eq, not_false_eq_true, not_true_eq_false,
      forall_const, true_and, and_true, if_true, if_false, reduceCtorEq,
      imp_false, false_implies, true_implies, or_true, true_or, false_or, or_false,
      and_imp, implies_true] <;>
    omega

theorem sessReachable_inv {d two : Bool} {s : SessState}
    (h : SessReachable d two s) : SessInv s ∧ s.dialOk = d := by
  induction h with
  | refl => exact ⟨sessInv_init d two, rfl⟩
  | tail _ hstep ih =>
    exact ⟨sessInv_step ih.1 hstep, (sessStep_const hstep).1.trans ih.2⟩

/-- In a stuck (fully terminated) lifecycle state, `Start` has run to the
end: on the successful-dial path it observed the completion signal exactly
once and closed both streams exactly once; on the dial-failure path it
observed nothing and closed only the local stream. -/
theorem sessStuck_terminal {s : SessState} (hinv : SessInv s) (hstuck : SessStuck s) :
    s.startPC = StartPC.finished ∧ s.closedL = 1 ∧
      s.closedR = (if s.dialOk then 1 else 0) ∧ s.recvs = (if s.dialOk then 1 else 0) := by
  obtain ⟨h1, h2, h3, h4, h5, h6, h7, h9, h10, h11, h12, h13, h14, h15⟩ := hinv
  have hfin : s.startPC = StartPC.finished := by
    cases hd : s.dialOk with
    | false =>
      cases hpc : s.startPC with
      | dialing => exact absurd (SessStep.dialFailure hpc hd) (hstuck _)
      | waiting => simp [h10 (Or.inl hpc)] at hd
      | closingR => simp [h10 (Or.inr hpc)] at hd
      | closingL => exact absurd (SessStep.closeLocal hpc) (hstuck _)
      | finished => rfl
    | true =>
      have hnd : s.startPC ≠ StartPC.dialing := by
        intro hpc
        exact hstuck _ (SessStep.dialSuccess hpc hd)
      have hA : s.taskA = TaskPC.done := by
        cases hA : s.taskA with
        | running => exact absurd (SessStep.failA hd hnd hA) (hstuck _)
        | checking =>
          cases he : s.erred with
          | true => exact absurd (SessStep.checkSeenA hA he) (hstuck _)
          | false => exact absurd (SessStep.checkFreshA hA he) (hstuck _)
        | sending =>
          have hsA : s.sentA = false := h3 (by simp [hA]) (by simp [hA])
          have hc : s.chanMsgs < 2 := by
            cases hsB : s.sentB <;> simp [hsA, hsB, b2n] at h1 <;> omega
          exact absurd (SessStep.sendA hA hc) (hstuck _)
        | latching => exact absurd (SessStep.latchA hA) (hstuck _)
        | done => rfl
      cases hpc : s.startPC with
      | dialing => exact absurd hpc hnd
      | waiting =>
        have hsend : 1 ≤ s.sends := by
          rcases h5 hA with hs | he
          · simp only [hs, b2n, if_true] at h1
            omega
          · exact h9 he
        have hr : s.recvs = 0 := by simp [h11, hpc]
        have hc : 0 < s.chanMsgs := by omega
        exact absurd (SessStep.recv hpc hc) (hstuck _)
      | closingR => exact absurd (SessStep.closeRemote hpc) (hstuck _)
      | closingL => exact absurd (SessStep.closeLocal hpc) (hstuck _)
      | finished => rfl
  have hcl : s.closedL = 1 := by simp [h13, hfin]
  have hcr : s.closedR = (if s.dialOk then 1 else 0) := by
    cases hd : s.dialOk <;> simp [h12, hfin, hd]
  have hrv : s.recvs = (if s.dialOk then 1 else 0) := by
    cases hd : s.dialOk <;> simp [h11, hfin, hd]
  exact ⟨hfin, hcl, hcr, hrv⟩

/-- Rank of a task counter: strictly decreases along every task step. -/
def taskRank : TaskPC → Nat
  | TaskPC.running => 4
  | TaskPC.checking => 3
  | TaskPC.sending => 2
  | TaskPC.latching => 1
  | TaskPC.done => 0

/-- Rank of `Start`'s counter. -/
def startRank : StartPC → Nat
  | StartPC.dialing => 4
  | StartPC.waiting => 3
  | StartPC.closingR => 2
  | StartPC.closingL => 1
  | StartPC.finished => 0

/-- Termination measure of a lifecycle state. -/
def sessMeasure (s : SessState) : Nat :=
  taskRank s.taskA + taskRank s.taskB + startRank s.startPC

theorem sessStep_measure {s t : SessState} (h : SessStep s t) :
    sessMeasure t < sessMeasure s := by
  cases h <;> simp_all [sessMeasure, taskRank, startRank]

/-- Every lifecycle run is finite: the session cannot take infinitely many
steps, so every complete run ends in a stuck state. -/
theorem sessNoInfiniteRun (f : Nat → SessState)
    (hf : ∀ n, SessStep (f n) (f (n + 1))) : False := by
  have key : ∀ n, sessMeasure (f n) + n ≤ sessMeasure (f 0) := by
    intro n
    induction n with
    | zero => simp
    | succ k ih =>
      have := sessStep_measure (hf k)
      omega
  have := key (sessMeasure (f 0) + 1)
  omega

/-! ## Claim C1 -/

/-- **C1** (amended): for every session and every interleaving of
outbound/inbound forwarding-task failures (including simultaneous failure),
the completion signal is asserted at most *twice* — at most once per task,
with the buffered two-slot channel and the `erred` latch absorbing the
duplicate — it is observed at most once, and exactly once by `Start` in any
fully terminated run with a successful dial; both owned streams are closed
exactly once on every exit path, the dial-failure path closing only the
local stream; and every run terminates. -/
theorem C1_exactly_once_termination (d two : Bool) (s : SessState)
    (h : SessReachable d two s) :
    s.sends ≤ 2 ∧ s.recvs ≤ 1 ∧ s.closedL ≤ 1 ∧ s.closedR ≤ 1 ∧
    (SessStuck s →
      s.startPC = StartPC.finished ∧ s.recvs = (if d then 1 else 0) ∧
        s.closedL = 1 ∧ s.closedR = (if d then 1 else 0)) ∧
    (∀ f : Nat → SessState, (∀ n, SessStep (f n) (f (n + 1))) → False) := by
  obtain ⟨hinv, hd⟩ := sessReachable_inv h
  refine ⟨?_, ?_, ?_, ?_, ?_, fun f hf => sessNoInfiniteRun f hf⟩
  · obtain ⟨h1, -⟩ := hinv
    cases hA : s.sentA <;> cases hB : s.sentB <;> simp [hA, hB, b2n] at h1 <;> omega
  · obtain ⟨-, -, -, -, -, -, -, -, -, h11, -⟩ := hinv
    rw [h11]; split <;> omega
  · obtain ⟨-, -, -, -, -, -, -, -, -, -, -, h13, -⟩ := hinv
    rw [h13]; split <;> omega
  · obtain ⟨-, -, -, -, -, -, -, -, -, -, h12, -⟩ := hinv
    rw [h12]; split <;> omega
  · intro hst
    obtain ⟨hfin, hcl, hcr, hrv⟩ := sessStuck_terminal hinv hst
    rw [hd] at hcr hrv
    exact ⟨hfin, hrv, hcl, hcr⟩

/-- Witness for C1: the theorem applied to the initial state of a
client-mode session with a successful dial. -/
theorem C1_exactly_once_termination_witness :
    (initSess true true).sends ≤ 2 ∧ (initSess true true).recvs ≤ 1 ∧
      (initSess true true).closedL ≤ 1 ∧ (initSess true true).closedR ≤ 1 ∧
      (SessStuck (initSess true true) →
        (initSess true true).startPC = StartPC.finished ∧
          (initSess true true).recvs = (if true then 1 else 0) ∧
          (initSess true true).closedL = 1 ∧
          (initSess true true).closedR = (if true then 1 else 0)) ∧
      (∀ f : Nat → SessState, (∀ n, SessStep (f n) (f (n + 1))) → False) :=
  C1_exactly_once_termination true true (initSess true true) Relation.ReflTransGen.refl

/-- The lifecycle state reached when both tasks fail simultaneously and
both pass the `erred` check before either send: the completion signal has
been asserted twice. -/
def sessDoubleAssert : SessState :=
  { dialOk := true
    twoTasks := true
    taskA := TaskPC.latching
    taskB := TaskPC.latching
    erred := false
    chanMsgs := 2
    sends := 2
    recvs := 0
    sentA := true
    sentB := true
    startPC := StartPC.waiting
    closedL := 0
    closedR := 0 }

/-- **C1** counterexample: the claim's "completion signal is asserted at
most once" fails — `Proxy.err` reads the `erred` latch before sending, so
when both tasks fail simultaneously and interleave check-check-send-send,
the signal is asserted twice (the channel's capacity of 2 exists exactly to
absorb the duplicate). -/
theorem C1_counterexample_double_assertion :
    SessReachable true true sessDoubleAssert ∧ 1 < sessDoubleAssert.sends := by
  constructor
  · refine Relation.ReflTransGen.head (SessStep.dialSuccess rfl rfl) ?_
    refine Relation.ReflTransGen.head (SessStep.failA rfl (by decide) rfl) ?_
    refine Relation.ReflTransGen.head (SessStep.failB rfl (by decide) rfl) ?_
    refine Relation.ReflTransGen.head (SessStep.checkFreshA rfl rfl) ?_
    refine Relation.ReflTransGen.head (SessStep.checkFreshB rfl rfl) ?_
    refine Relation.ReflTransGen.head (SessStep.sendA rfl (by decide)) ?_
    refine Relation.ReflTransGen.head (SessStep.sendB rfl (by decide)) ?_
    exact Relation.ReflTransGen.refl
  · decide

/-! ## Replacement lemmas -/

theorem replaceL_not_contains (fuel : Nat) (s pat rep : List Char)
    (hf : s.length ≤ fuel) (hc : goContainsL s pat = false) :
    replaceL fuel s pat rep = s := by
  induction fuel generalizing s with
  | zero =>
    cases s with
    | nil => cases pat <;> rfl
    | cons c t => simp at hf
  | succ n ih =>
    cases pat with
    | nil => rfl
    | cons pc pt =>
      cases s with
      | nil => rfl
      | cons c t =>
        unfold goContainsL at hc
        rw [Bool.or_eq_false_iff] at hc
        have ht : replaceL n t (pc :: pt) rep = t := by
          apply ih
          · simpa using Nat.le_of_succ_le_succ (by simpa using hf)
          · exact hc.2
        simp only [replaceL, hc.1, Bool.false_eq_true, if_false, ht]

theorem goReplaceAll_not_contains (s pat rep : String)
    (hc : goContains s pat = false) : goReplaceAll s pat rep = s := by
  unfold goReplaceAll
  rw [replaceL_not_contains _ _ _ _ (Nat.le_refl _) hc]

/-! ## Claim C3 -/

/-- **C3**: in server mode, the outbound hook applied to the first local
buffer scans its lines case-insensitively for an `Upgrade: websocket`
header; if one is found it replaces the whole buffer with the fixed
101-switching-protocols response (concrete CRLF bytes) and sets the
upgrade-pending flag, and otherwise the buffer passes through unmodified. -/
theorem C3_server_mode_upgrade_scan (p : Proxy) (buf : String)
    (hs : p.serverProxyMode = true) (hi : p.lInitialized = false) :
    p.handleOutboundData buf =
      (if (scanLines buf).any (fun l => goContains (goToLower l) "upgrade: websocket") then
        some ({ p with lInitialized := true, wsUpgradeInitialized := true },
          "HTTP/1.1 101 Switching Protocols\r\nUpgrade: websocket\r\nConnection: Upgrade\r\n\r\n")
      else some ({ p with lInitialized := true }, buf)) := by
  unfold Proxy.handleOutboundData
  simp [hi, hs, wsUpgradeResponse]

/-- Witness for C3, at a mixed-case `Upgrade: WebSocket` request. -/
theorem C3_server_mode_upgrade_scan_witness :
    ((NewProxy 2).SetServerProxyMode true).handleOutboundData
        "GET / HTTP/1.1\r\nUpgrade: WebSocket\r\n\r\n" =
      (if (scanLines "GET / HTTP/1.1\r\nUpgrade: WebSocket\r\n\r\n").any
          (fun l => goContains (goToLower l) "upgrade: websocket") then
        some ({ (NewProxy 2).SetServerProxyMode true with
                  lInitialized := true, wsUpgradeInitialized := true },
          "HTTP/1.1 101 Switching Protocols\r\nUpgrade: websocket\r\nConnection: Upgrade\r\n\r\n")
      else some ({ (NewProxy 2).SetServerProxyMode true with lInitialized := true },
        "GET / HTTP/1.1\r\nUpgrade: WebSocket\r\n\r\n")) :=
  C3_server_mode_upgrade_scan ((NewProxy 2).SetServerProxyMode true)
    "GET / HTTP/1.1\r\nUpgrade: WebSocket\r\n\r\n" rfl rfl

/-! ## Claim C4 -/

/-- The client-mode SSH scenario session: kind `ssh`, server host
`example.com:22`, outbound payload template
`CONNECT [host_port] HTTP/1.1[crlf][crlf]`. -/
def sshScenarioProxy : Proxy :=
  ((((NewProxy 1).SetProxyKind "ssh").SetServerHost "example.com:22").SetlPayload
    "CONNECT [host_port] HTTP/1.1[crlf][crlf]")

/-- **C4**: in client mode with kind `ssh`, a first buffer whose first
logical line contains `CONNECT ` is replaced wholesale by the precomputed
outbound payload, and any other first line passes through unmodified; in
particular the spec's scenario buffer is rewritten to
`CONNECT example.com:22 HTTP/1.1\r\n\r\n` exactly. -/
theorem C4_client_ssh_connect_rewrite (p : Proxy) (buf first : String) (rest : List String)
    (hs : p.serverProxyMode = false) (hk : p.proxyKind = "ssh")
    (hi : p.lInitialized = false) (hl : scanLines buf = first :: rest) :
    p.handleOutboundData buf =
      some ({ p with lInitialized := true },
        if goContains first "CONNECT " then p.lPayload else buf) ∧
    sshScenarioProxy.handleOutboundData "CONNECT anything HTTP/1.1\r\n\r\n" =
      some ({ sshScenarioProxy with lInitialized := true },
        "CONNECT example.com:22 HTTP/1.1\r\n\r\n") := by
  constructor
  · unfold Proxy.handleOutboundData
    simp [hi, hs, hk, hl]
  · decide

/-- Witness for C4, at the scenario session and buffer. -/
theorem C4_client_ssh_connect_rewrite_witness :
    sshScenarioProxy.handleOutboundData "CONNECT anything HTTP/1.1\r\n\r\n" =
      some ({ sshScenarioProxy with lInitialized := true },
        if goContains "CONNECT anything HTTP/1.1" "CONNECT " then sshScenarioProxy.lPayload
        else "CONNECT anything HTTP/1.1\r\n\r\n") :=
  (C4_client_ssh_connect_rewrite sshScenarioProxy "CONNECT anything HTTP/1.1\r\n\r\n"
    "CONNECT anything HTTP/1.1" [""] rfl rfl rfl (by decide)).1

/-! ## Claim C5 -/

/-- **C5**: the outbound payload setter substitutes the recognised tokens
in the fixed order `[host]`, `[host_port]`, `[sni]`, `[crlf]`; tokens whose
value is unconfigured are left verbatim (shown both in general for a
template with no `[crlf]` occurrence and on a concrete template where
`[host]` stays verbatim while `[sni]` and `[crlf]` are substituted); the
inbound setter defaults an empty template to
`HTTP/1.1 200 Connection Established[crlf][crlf]` and applies only the
`[crlf]` substitution. -/
theorem C5_payload_template_engine (p : Proxy) (t : String)
    (hh : p.sHost.HostName ≠ "") (hsni : p.sniHost ≠ "") :
    (p.SetlPayload t).lPayload =
      goReplaceAll (goReplaceAll (goReplaceAll (goReplaceAll t
        "[host]" p.sHost.HostName)
        "[host_port]" (p.sHost.HostName ++ ":" ++ toString p.sHost.Port))
        "[sni]" p.sniHost)
        "[crlf]" "\r\n" ∧
    (∀ (q : Proxy) (u : String), q.sHost.HostName = "" → q.sniHost = "" →
      goContains u "[crlf]" = false → (q.SetlPayload u).lPayload = u) ∧
    (∀ q : Proxy, (q.SetrPayload "").rPayload =
      "HTTP/1.1 200 Connection Established\r\n\r\n") ∧
    (∀ (q : Proxy) (u : String), u ≠ "" →
      (q.SetrPayload u).rPayload = goReplaceAll u "[crlf]" "\r\n") ∧
    (((NewProxy 0).SetSNIHost "sni.example").SetlPayload "[host] [sni][crlf]").lPayload =
      "[host] sni.example\r\n" := by
  refine ⟨?_, ?_, ?_, ?_, ?_⟩
  · simp [Proxy.SetlPayload, hh, hsni]
  · intro q u h1 h2 h3
    simp [Proxy.SetlPayload, h1, h2]
    exact goReplaceAll_not_contains u "[crlf]" "\r\n" h3
  · intro q
    show goReplaceAll "HTTP/1.1 200 Connection Established[crlf][crlf]" "[crlf]" "\r\n" = _
    decide
  · intro q u hu
    simp [Proxy.SetrPayload, hu]
  · decide

/-- Witness for C5, at a session with host `h.example:80` and SNI
`s.example`. -/
theorem C5_payload_template_engine_witness :
    ((((NewProxy 0).SetServerHost "h.example:80").SetSNIHost "s.example").SetlPayload
        "[host_port]|[sni][crlf]").lPayload =
      goReplaceAll (goReplaceAll (goReplaceAll (goReplaceAll "[host_port]|[sni][crlf]"
        "[host]" (((NewProxy 0).SetServerHost "h.example:80").SetSNIHost "s.example").sHost.HostName)
        "[host_port]" ((((NewProxy 0).SetServerHost "h.example:80").SetSNIHost "s.example").sHost.HostName
          ++ ":" ++ toString (((NewProxy 0).SetServerHost "h.example:80").SetSNIHost "s.example").sHost.Port))
        "[sni]" (((NewProxy 0).SetServerHost "h.example:80").SetSNIHost "s.example").sniHost)
        "[crlf]" "\r\n" :=
  (C5_payload_template_engine
    (((NewProxy 0).SetServerHost "h.example:80").SetSNIHost "s.example")
    "[host_port]|[sni][crlf]" (by decide) (by decide)).1

/-! ## Claim C8 -/

/-- **C8**: the hooks' access to the first logical line is not defensively
guarded: on an empty first buffer (which yields no logical lines) the
client-mode outbound hook under kind `ssh` or `trojan`, and the inbound
hook in either role, index the first element of an empty line list — the
embedding returns `none` exactly where the Go code panics with an index out
of range, so these hooks are not total on such inputs.  The server-mode
outbound hook, which never indexes the line list, survives the same
buffer. -/
theorem C8_empty_buffer_not_total :
    ((NewProxy 0).SetProxyKind "ssh").handleOutboundData "" = none ∧
    ((NewProxy 0).SetProxyKind "trojan").handleOutboundData "" = none ∧
    (NewProxy 0).handleInboundData "" = none ∧
    ((NewProxy 0).SetServerProxyMode true).handleInboundData "" = none ∧
    ((NewProxy 0).SetServerProxyMode true).handleOutboundData "" =
      some ({ (NewProxy 0).SetServerProxyMode true with lInitialized := true }, "") := by
  refine ⟨?_, ?_, ?_, ?_, ?_⟩ <;> decide

/-! ## Claim C10 -/

/-- **C10**: the outbound payload is computed from the host/SNI values at
the moment `SetlPayload` runs and is never recomputed: the host and SNI
setters leave the stored payload untouched, so when `SetlPayload` runs
before them the `[host]`, `[host_port]` and `[sni]` tokens stay unexpanded
(only `[crlf]` is substituted) even though the values are configured before
`Start`; concretely, the scenario template keeps a verbatim `[host_port]`
when the setters run in that order. -/
theorem C10_payload_fixed_at_set_time (p : Proxy) (server sni t : String)
    (hh : p.sHost.HostName = "") (hs : p.sniHost = "") :
    (p.SetServerHost server).lPayload = p.lPayload ∧
    (p.SetSNIHost sni).lPayload = p.lPayload ∧
    (((p.SetlPayload t).SetServerHost server).SetSNIHost sni).lPayload =
      goReplaceAll t "[crlf]" "\r\n" ∧
    ((((NewProxy 0).SetlPayload "CONNECT [host_port] HTTP/1.1[crlf][crlf]").SetServerHost
        "example.com:22").lPayload = "CONNECT [host_port] HTTP/1.1\r\n\r\n") := by
  have hsrv : ∀ q : Proxy, (q.SetServerHost server).lPayload = q.lPayload := by
    intro q
    unfold Proxy.SetServerHost
    split
    · rfl
    · split <;> rfl
  refine ⟨hsrv p, rfl, ?_, by decide⟩
  show ((p.SetlPayload t).SetServerHost server).lPayload = _
  rw [hsrv (p.SetlPayload t)]
  show (p.SetlPayload t).lPayload = _
  simp [Proxy.SetlPayload, hh, hs]

/-- Witness for C10, at a fresh session with the scenario template. -/
theorem C10_payload_fixed_at_set_time_witness :
    (((NewProxy 0).SetServerHost "example.com:22").lPayload = (NewProxy 0).lPayload) ∧
    (((NewProxy 0).SetSNIHost "cdn.example").lPayload = (NewProxy 0).lPayload) ∧
    (((((NewProxy 0).SetlPayload "CONNECT [host_port] HTTP/1.1[crlf][crlf]").SetServerHost
        "example.com:22").SetSNIHost "cdn.example").lPayload =
      goReplaceAll "CONNECT [host_port] HTTP/1.1[crlf][crlf]" "[crlf]" "\r\n") ∧
    ((((NewProxy 0).SetlPayload "CONNECT [host_port] HTTP/1.1[crlf][crlf]").SetServerHost
        "example.com:22").lPayload = "CONNECT [host_port] HTTP/1.1\r\n\r\n") :=
  C10_payload_fixed_at_set_time (NewProxy 0) "example.com:22" "cdn.example"
    "CONNECT [host_port] HTTP/1.1[crlf][crlf]" rfl rfl

/-! ## Claim C6 -/

/-- The client-mode inbound scenario session: kind `ssh`, canned default
inbound payload. -/
def inboundScenarioProxy : Proxy :=
  ((NewProxy 4).SetProxyKind "ssh").SetrPayload ""

/-- The server-mode variant of the inbound scenario session. -/
def inboundServerScenarioProxy : Proxy :=
  (((NewProxy 5).SetProxyKind "ssh").SetrPayload "").SetServerProxyMode true

/-- **C6**: on the first inbound buffer, when the first logical line is an
HTTP 101 response (it contains `" 101 "`) and the kind is `ssh`, the first
line is replaced by the configured remote payload stripped of its CRLF line
terminators, the remaining lines being preserved; in client mode the buffer
is then re-serialised as the lines joined by CRLF plus one trailing CRLF,
while in server mode the buffer passes through byte-for-byte.  The two
concrete conjuncts instantiate the client and server roles on the same 101
response. -/
theorem C6_inbound_first_line_rewrite (p : Proxy) (buf first : String) (rest : List String)
    (hi : p.rInitialized = false) (hl : scanLines buf = first :: rest) :
    p.handleInboundData buf =
      some ({ p with rInitialized := true },
        if p.serverProxyMode then buf
        else
          goJoin ((if goContains first " 101 " = true ∧ p.proxyKind = "ssh" then
              goReplaceAll p.rPayload "\r\n" ""
            else first) :: rest) "\r\n" ++ "\r\n") ∧
    inboundScenarioProxy.handleInboundData
        "HTTP/1.1 101 Switching Protocols\r\nUpgrade: websocket\r\n\r\n" =
      some ({ inboundScenarioProxy with rInitialized := true },
        "HTTP/1.1 200 Connection Established\r\nUpgrade: websocket\r\n\r\n") ∧
    inboundServerScenarioProxy.handleInboundData
        "HTTP/1.1 101 Switching Protocols\r\nUpgrade: websocket\r\n\r\n" =
      some ({ inboundServerScenarioProxy with rInitialized := true },
        "HTTP/1.1 101 Switching Protocols\r\nUpgrade: websocket\r\n\r\n") := by
  refine ⟨?_, by decide, by decide⟩
  unfold Proxy.handleInboundData
  simp [hi, hl]

/-- Witness for C6, at the client-mode scenario session and a 101
response. -/
theorem C6_inbound_first_line_rewrite_witness :
    inboundScenarioProxy.handleInboundData
        "HTTP/1.1 101 Switching Protocols\r\nUpgrade: websocket\r\n\r\n" =
      some ({ inboundScenarioProxy with rInitialized := true },
        if inboundScenarioProxy.serverProxyMode then
          "HTTP/1.1 101 Switching Protocols\r\nUpgrade: websocket\r\n\r\n"
        else
          goJoin ((if goContains "HTTP/1.1 101 Switching Protocols" " 101 " = true ∧
                inboundScenarioProxy.proxyKind = "ssh" then
              goReplaceAll inboundScenarioProxy.rPayload "\r\n" ""
            else "HTTP/1.1 101 Switching Protocols") :: ["Upgrade: websocket", ""]) "\r\n"
            ++ "\r\n") :=
  (C6_inbound_first_line_rewrite inboundScenarioProxy
    "HTTP/1.1 101 Switching Protocols\r\nUpgrade: websocket\r\n\r\n"
    "HTTP/1.1 101 Switching Protocols" ["Upgrade: websocket", ""] rfl (by decide)).1

/-! ## Claim C9 -/

/-- The client-mode trojan scenario session: kind `trojan`, SNI host
`cdn.example`. -/
def trojanScenarioProxy : Proxy :=
  ((NewProxy 3).SetProxyKind "trojan").SetSNIHost "cdn.example"

/-- **C9** counterexample: the trojan rewrite replaces *every* occurrence
of the spaced path token, not only the request line's: on a first buffer
whose header also contains `" /abc "`, the header is rewritten too, so the
claim's "leaving the rest of the request line and headers intact" is
false. -/
theorem C9_counterexample_header_also_rewritten :
    trojanScenarioProxy.handleOutboundData
        "GET /abc HTTP/1.1\r\nReferer: x /abc y\r\n\r\n" =
      some ({ trojanScenarioProxy with lInitialized := true },
        "GET wss://cdn.example/abc HTTP/1.1\r\nReferer: x wss://cdn.example/abc y\r\n\r\n") ∧
    ("GET wss://cdn.example/abc HTTP/1.1\r\nReferer: x wss://cdn.example/abc y\r\n\r\n" ≠
      "GET wss://cdn.example/abc HTTP/1.1\r\nReferer: x /abc y\r\n\r\n") := by
  refine ⟨by decide, by decide⟩

/-- **C9** (amended): in client mode with kind `trojan`, the hook takes the
second space-delimited field of the first line as the request path and
substring-replaces *every* occurrence of `" <path> "` in the buffer with
`" wss://<sniHost><path> "` (in typical requests the token occurs only in
the request line, which leaves the headers intact); the spec's concrete
scenario holds verbatim. -/
theorem C9_trojan_request_target_rewrite (p : Proxy) (buf first f0 reqPath : String)
    (rest fields : List String)
    (hs : p.serverProxyMode = false) (hk : p.proxyKind = "trojan")
    (hi : p.lInitialized = false) (hl : scanLines buf = first :: rest)
    (hf : goSplitChar first ' ' = f0 :: reqPath :: fields) :
    p.handleOutboundData buf =
      some ({ p with lInitialized := true },
        goReplaceAll buf (" " ++ reqPath ++ " ")
          (" wss://" ++ p.sniHost ++ reqPath ++ " ")) ∧
    trojanScenarioProxy.handleOutboundData "GET /abc HTTP/1.1\r\nHost: x\r\n\r\n" =
      some ({ trojanScenarioProxy with lInitialized := true },
        "GET wss://cdn.example/abc HTTP/1.1\r\nHost: x\r\n\r\n") := by
  refine ⟨?_, by decide⟩
  unfold Proxy.handleOutboundData
  simp [hi, hs, hk, hl, hf]

/-- Witness for C9, at the scenario session and the spec's scenario
buffer. -/
theorem C9_trojan_request_target_rewrite_witness :
    trojanScenarioProxy.handleOutboundData "GET /abc HTTP/1.1\r\nHost: x\r\n\r\n" =
      some ({ trojanScenarioProxy with lInitialized := true },
        goReplaceAll "GET /abc HTTP/1.1\r\nHost: x\r\n\r\n" (" " ++ "/abc" ++ " ")
          (" wss://" ++ trojanScenarioProxy.sniHost ++ "/abc" ++ " ")) :=
  (C9_trojan_request_target_rewrite trojanScenarioProxy
    "GET /abc HTTP/1.1\r\nHost: x\r\n\r\n" "GET /abc HTTP/1.1" "GET" "/abc"
    ["Host: x", ""] ["HTTP/1.1"] rfl rfl rfl (by decide) (by decide)).1

/-! ## Hook and forwarding-iteration lemmas -/

theorem handleOutboundData_marks {p q : Proxy} {b b1 : String}
    (h : p.handleOutboundData b = some (q, b1)) : q.lInitialized = true := by
  unfold Proxy.handleOutboundData at h
  simp only [] at h
  repeat' split at h
  all_goals (try simp_all)
  all_goals obtain ⟨hq, -⟩ := h
  all_goals cases hq
  all_goals first
    | rfl
    | simp_all

theorem handleInboundData_marks {p q : Proxy} {b b1 : String}
    (h : p.handleInboundData b = some (q, b1)) : q.rInitialized = true := by
  unfold Proxy.handleInboundData at h
  simp only [] at h
  repeat' split at h
  all_goals (try simp_all)
  all_goals obtain ⟨hq, -⟩ := h
  all_goals cases hq
  all_goals first
    | rfl
    | simp_all

theorem handleOutboundData_ws {p q : Proxy} {b b1 : String}
    (hws : p.wsUpgradeInitialized = false)
    (h : p.handleOutboundData b = some (q, b1)) :
    q.wsUpgradeInitialized = true → q.serverProxyMode = true := by
  unfold Proxy.handleOutboundData at h
  simp only [] at h
  repeat' split at h
  all_goals (try simp_all)
  all_goals obtain ⟨hq, -⟩ := h
  all_goals cases hq
  all_goals first
    | rfl
    | simp_all

theorem handleInboundData_ws {p q : Proxy} {b b1 : String}
    (hws : p.wsUpgradeInitialized = false)
    (h : p.handleInboundData b = some (q, b1)) :
    q.wsUpgradeInitialized = false := by
  unfold Proxy.handleInboundData at h
  simp only [] at h
  repeat' split at h
  all_goals (try simp_all)
  all_goals obtain ⟨hq, -⟩ := h
  all_goals cases hq
  all_goals first
    | rfl
    | simp_all

theorem account_flags (p : Proxy) (l : Bool) (b : String) :
    (p.account l b).lInitialized = p.lInitialized ∧
    (p.account l b).rInitialized = p.rInitialized ∧
    (p.account l b).serverProxyMode = p.serverProxyMode ∧
    (p.account l b).wsUpgradeInitialized = p.wsUpgradeInitialized := by
  cases l <;> simp [Proxy.account]

theorem forwardIter_passthrough (p : Proxy) (l : Bool) (b : String)
    (hinit : (if l then p.lInitialized else p.rInitialized) = true)
    (hws : p.serverProxyMode = true → p.wsUpgradeInitialized = false) :
    p.forwardIter l b =
      some { state := p.account l b, written := b,
             target := WriteTarget.toDst, spawnedReverse := false } := by
  unfold Proxy.forwardIter
  cases l with
  | true =>
    simp only [if_true] at hinit ⊢
    rw [show p.handleOutboundData b = some (p, b) by
      unfold Proxy.handleOutboundData; rw [if_pos hinit]]
    cases hsm : p.serverProxyMode with
    | true => simp [hsm, hws hsm]
    | false => simp [hsm]
  | false =>
    simp only [if_false, Bool.false_eq_true] at hinit ⊢
    rw [show p.handleInboundData b = some (p, b) by
      unfold Proxy.handleInboundData; rw [if_pos hinit]]
    cases hsm : p.serverProxyMode with
    | true => simp [hsm, hws hsm]
    | false => simp [hsm]

theorem forwardIter_marks {p : Proxy} {l : Bool} {b : String} {o : IterOutcome}
    (h : p.forwardIter l b = some o) :
    (if l then o.state.lInitialized else o.state.rInitialized) = true := by
  unfold Proxy.forwardIter at h
  cases l with
  | true =>
    simp only [if_true] at h ⊢
    cases hh : p.handleOutboundData b with
    | none => rw [hh] at h; cases h
    | some qb =>
      obtain ⟨q1, b1⟩ := qb
      rw [hh] at h
      simp only [] at h
      have hq : q1.lInitialized = true := handleOutboundData_marks hh
      by_cases hc : (q1.serverProxyMode && q1.wsUpgradeInitialized) = true
      · rw [if_pos hc] at h
        cases Option.some.inj h
        exact hq
      · rw [if_neg hc] at h
        cases Option.some.inj h
        exact hq
  | false =>
    simp only [if_false, Bool.false_eq_true] at h ⊢
    cases hh : p.handleInboundData b with
    | none => rw [hh] at h; cases h
    | some qb =>
      obtain ⟨q1, b1⟩ := qb
      rw [hh] at h
      simp only [] at h
      have hq : q1.rInitialized = true := handleInboundData_marks hh
      by_cases hc : (q1.serverProxyMode && q1.wsUpgradeInitialized) = true
      · rw [if_pos hc] at h
        cases Option.some.inj h
        exact hq
      · rw [if_neg hc] at h
        cases Option.some.inj h
        exact hq

theorem forwardIter_ws {p : Proxy} {l : Bool} {b : String} {o : IterOutcome}
    (hws : p.wsUpgradeInitialized = false) (h : p.forwardIter l b = some o) :
    o.state.wsUpgradeInitialized = false := by
  unfold Proxy.forwardIter at h
  cases l with
  | true =>
    simp only [if_true] at h
    cases hh : p.handleOutboundData b with
    | none => rw [hh] at h; cases h
    | some qb =>
      obtain ⟨q1, b1⟩ := qb
      rw [hh] at h
      simp only [] at h
      have himp : q1.wsUpgradeInitialized = true → q1.serverProxyMode = true :=
        handleOutboundData_ws hws hh
      by_cases hc : (q1.serverProxyMode && q1.wsUpgradeInitialized) = true
      · rw [if_pos hc] at h
        cases Option.some.inj h
        rfl
      · rw [if_neg hc] at h
        cases Option.some.inj h
        show q1.wsUpgradeInitialized = false
        cases hq : q1.wsUpgradeInitialized with
        | false => rfl
        | true => exact absurd (by rw [himp hq, hq]; rfl) hc
  | false =>
    simp only [if_false, Bool.false_eq_true] at h
    cases hh : p.handleInboundData b with
    | none => rw [hh] at h; cases h
    | some qb =>
      obtain ⟨q1, b1⟩ := qb
      rw [hh] at h
      simp only [] at h
      have hq1 : q1.wsUpgradeInitialized = false := handleInboundData_ws hws hh
      by_cases hc : (q1.serverProxyMode && q1.wsUpgradeInitialized) = true
      · rw [if_pos hc] at h
        cases Option.some.inj h
        rfl
      · rw [if_neg hc] at h
        cases Option.some.inj h
        exact hq1

theorem forwardRun_passthrough (l : Bool) (bs : List String) :
    ∀ p : Proxy, (if l then p.lInitialized else p.rInitialized) = true →
      (p.serverProxyMode = true → p.wsUpgradeInitialized = false) →
      ∃ pf, p.forwardRun l bs = some (pf, bs.map fun b => (b, WriteTarget.toDst)) := by
  induction bs with
  | nil => exact fun p _ _ => ⟨p, rfl⟩
  | cons b bs ih =>
    intro p h1 h2
    have hflags := account_flags p l b
    have h1a : (if l then (p.account l b).lInitialized else (p.account l b).rInitialized) = true := by
      cases l <;> simp_all
    have h2a : (p.account l b).serverProxyMode = true → (p.account l b).wsUpgradeInitialized = false := by
      rw [hflags.2.2.1, hflags.2.2.2]; exact h2
    obtain ⟨pf, hpf⟩ := ih (p.account l b) h1a h2a
    refine ⟨pf, ?_⟩
    simp [Proxy.forwardRun, forwardIter_passthrough p l b h1 h2, hpf]

/-! ## Claim C2 -/

/-- **C2** counterexample: in server mode with the upgrade just flagged,
the forwarding task writes the rewritten buffer back to the *source*
stream (`src.Write`, answering the requester), not to the destination
stream as the claim states. -/
theorem C2_counterexample_writes_to_source :
    ((NewProxy 2).SetServerProxyMode true).forwardIter true
        "GET / HTTP/1.1\r\nUpgrade: WebSocket\r\n\r\n" =
      some { state := { (NewProxy 2).SetServerProxyMode true with lInitialized := true, wsUpgradeInitialized := false, bytesSent := wsUpgradeResponse.length }
             written := wsUpgradeResponse
             target := WriteTarget.toSrc
             spawnedReverse := true } ∧
    WriteTarget.toSrc ≠ WriteTarget.toDst := by
  refine ⟨by decide, by decide⟩

/-- **C2** (amended): in server mode, when the outbound hook has just
flagged the WebSocket-upgrade-pending state, the forwarding task writes the
rewritten buffer back to the *source* stream (the stream the request was
read from), clears the flag, and starts a new forwarding task for the
reverse direction `(destination, source)` before continuing its own loop in
the original direction. -/
theorem C2_server_upgrade_relink (p : Proxy) (buf : String)
    (hs : p.serverProxyMode = true) (hi : p.lInitialized = false)
    (hu : (scanLines buf).any (fun l => goContains (goToLower l) "upgrade: websocket") = true) :
    p.forwardIter true buf =
      some { state := { p with lInitialized := true, wsUpgradeInitialized := false, bytesSent := p.bytesSent + wsUpgradeResponse.length }
             written := wsUpgradeResponse
             target := WriteTarget.toSrc
             spawnedReverse := true } := by
  unfold Proxy.forwardIter
  rw [show p.handleOutboundData buf =
      some ({ p with wsUpgradeInitialized := true, lInitialized := true }, wsUpgradeResponse) by
    unfold Proxy.handleOutboundData
    simp [hi, hs, hu]]
  simp [hs, Proxy.account]

/-- Witness for C2, at a fresh server-mode session and a mixed-case
upgrade request. -/
theorem C2_server_upgrade_relink_witness :
    ((NewProxy 2).SetServerProxyMode true).forwardIter true
        "GET / HTTP/1.1\r\nUpgrade: WebSocket\r\n\r\n" =
      some { state := { (NewProxy 2).SetServerProxyMode true with lInitialized := true, wsUpgradeInitialized := false, bytesSent := ((NewProxy 2).SetServerProxyMode true).bytesSent + wsUpgradeResponse.length }
             written := wsUpgradeResponse
             target := WriteTarget.toSrc
             spawnedReverse := true } :=
  C2_server_upgrade_relink ((NewProxy 2).SetServerProxyMode true)
    "GET / HTTP/1.1\r\nUpgrade: WebSocket\r\n\r\n" rfl rfl (by decide)

/-! ## Claim C7 -/

/-- **C7**: processing a sequence of buffers in one direction, the rewrite
hook inspects or mutates only the first buffer and marks itself fired
regardless of branch (first two conjuncts: the direction's latch is set by
any successful first iteration, and the transient upgrade flag is clear
afterwards); every later buffer reaches the forwarding write byte-identical,
written to the destination with no reverse-task spawn (third conjunct for
the whole remaining sequence, fourth conjunct for any single buffer of a
latched session). -/
theorem C7_first_packet_latch (p : Proxy) (l : Bool) (b0 : String) (bs : List String)
    (o : IterOutcome) (hws : p.wsUpgradeInitialized = false)
    (h0 : p.forwardIter l b0 = some o) :
    ((if l then o.state.lInitialized else o.state.rInitialized) = true) ∧
    o.state.wsUpgradeInitialized = false ∧
    (∃ pf, o.state.forwardRun l bs = some (pf, bs.map fun b => (b, WriteTarget.toDst))) ∧
    (∀ q : Proxy, (if l then q.lInitialized else q.rInitialized) = true →
      (q.serverProxyMode = true → q.wsUpgradeInitialized = false) → ∀ b : String,
      q.forwardIter l b =
        some { state := q.account l b, written := b,
               target := WriteTarget.toDst, spawnedReverse := false }) := by
  have h1 := forwardIter_marks h0
  have h2 := forwardIter_ws hws h0
  refine ⟨h1, h2, ?_, fun q hq hqw b => forwardIter_passthrough q l b hq hqw⟩
  exact forwardRun_passthrough l bs o.state h1 (fun _ => h2)

/-- The outcome of the first iteration of a plain client-mode session on
the buffer `hello` (used by the C7 witness). -/
def plainFirstOutcome : IterOutcome :=
  { state := { NewProxy 7 with lInitialized := true, bytesSent := 5 }
    written := "hello"
    target := WriteTarget.toDst
    spawnedReverse := false }

/-- Witness for C7: a plain client-mode session, first buffer `hello`,
then two further buffers that pass through byte-identical. -/
theorem C7_first_packet_latch_witness :
    ((if true then plainFirstOutcome.state.lInitialized
      else plainFirstOutcome.state.rInitialized) = true) ∧
    plainFirstOutcome.state.wsUpgradeInitialized = false ∧
    (∃ pf, plainFirstOutcome.state.forwardRun true ["a", "bc"] =
      some (pf, ["a", "bc"].map fun b => (b, WriteTarget.toDst))) ∧
    (∀ q : Proxy, (if true then q.lInitialized else q.rInitialized) = true →
      (q.serverProxyMode = true → q.wsUpgradeInitialized = false) → ∀ b : String,
      q.forwardIter true b =
        some { state := q.account true b, written := b,
               target := WriteTarget.toDst, spawnedReverse := false }) :=
  C7_first_packet_latch (NewProxy 7) true "hello" ["a", "bc"] plainFirstOutcome
    rfl (by decide)

end TunnelProxy
